import Mathlib

/-!
# Dynamic Data Table Manager — verification of the query-and-mutation core

Shallow embedding of the row/column query-and-mutation engine:
the Redux slice `tableSlice.ts` (state, reducers), the query helpers
`filterRows` / `sortRows` / `pagedRows` of `TableManager`, the export
projection `getExportData` of `AdvancedExport`, and the bulk-action
handler `handleBulkDuplicate` of `BulkActions`.

JavaScript scalar values (`string | number | boolean | null | undefined`)
are modelled by `Option Value`, where `none` stands for `undefined`
(an absent field reads as `undefined`).  JavaScript numbers are modelled
by `JsNum` (`NaN`, the two infinities, or a rational); the coercions
`String(...)` and `Number(...)` and the JS comparison operators are
modelled explicitly below.  Number-to-string conversion prints integral
values exactly as JS does; non-integral values are printed as a fraction
(an approximation of JS float printing that no theorem below depends on).
Nondeterministic identity/timestamp generation (`uuidv4()`, `Date.now()`,
`new Date().toISOString()`) is modelled by injected parameters.
-/

/-- A JavaScript number: NaN, +Infinity, -Infinity, or a finite value
(modelled as a rational; JS floats are not revisited bit-for-bit, only
their comparison and NaN-propagation behavior, which the code relies on). -/
inductive JsNum where
  | nan
  | posInf
  | negInf
  | val (q : Rat)
deriving Repr, DecidableEq

/-- A JavaScript scalar value as stored in a row field
(`string | number | boolean | null`); `undefined` is represented by
`Option.none` at the use sites. -/
inductive Value where
  | str (s : String)
  | num (n : JsNum)
  | bool (b : Bool)
  | null
deriving Repr, DecidableEq

/-- The whitespace characters stripped by `String.prototype.trim` (the
common ASCII subset; the data in this application is ASCII). -/
def isJsWhitespace (c : Char) : Bool :=
  c = ' ' || c = '\t' || c = '\n' || c = '\r'

/-- JS `s.trim()`. -/
def jsTrim (s : String) : String :=
  ⟨((s.toList.dropWhile isJsWhitespace).reverse.dropWhile isJsWhitespace).reverse⟩

/-- JS `s.toLowerCase()` (character-wise lowercasing). -/
def jsToLower (s : String) : String :=
  ⟨s.toList.map Char.toLower⟩

/-- JS `haystack.includes(needle)`: contiguous substring containment. -/
def strIncludes (haystack needle : String) : Bool :=
  decide (needle.toList <:+: haystack.toList)

/-- Decimal digits to the natural number they denote. -/
def digitsToNat (cs : List Char) : Nat :=
  cs.foldl (fun a c => a * 10 + (c.toNat - 48)) 0

/-- Split a character list into its leading run of decimal digits and the rest. -/
def splitDigits : List Char → List Char × List Char
  | [] => ([], [])
  | c :: cs =>
    if c.isDigit then
      let p := splitDigits cs
      (c :: p.1, p.2)
    else ([], c :: cs)

/-- Parse a (sign, digits, optional fraction, optional exponent) decimal
literal; `none` when the characters are not such a literal.  This is the
grammar `Number(string)` accepts for finite decimal input (hexadecimal
and octal literals are not produced by this application's data paths). -/
def parseDecimal (cs0 : List Char) : Option Rat :=
  let sp : Int × List Char :=
    match cs0 with
    | '+' :: r => (1, r)
    | '-' :: r => (-1, r)
    | r => (1, r)
  let sgn := sp.1
  let ip := splitDigits sp.2
  let fp : List Char × List Char :=
    match ip.2 with
    | '.' :: r => splitDigits r
    | r => ([], r)
  if ip.1.isEmpty ∧ fp.1.isEmpty then none
  else
    let num0 : Int := sgn * ((digitsToNat ip.1 : Int) * (10 : Int) ^ fp.1.length + (digitsToNat fp.1 : Int))
    let den0 : Nat := 10 ^ fp.1.length
    match fp.2 with
    | [] => some (mkRat num0 den0)
    | 'e' :: r =>
      match parseExpPart r with
      | some e => some (applyExp num0 den0 e)
      | none => none
    | 'E' :: r =>
      match parseExpPart r with
      | some e => some (applyExp num0 den0 e)
      | none => none
    | _ => none
where
  /-- Parse the exponent body (optional sign then one or more digits,
  consuming the whole remainder). -/
  parseExpPart (r : List Char) : Option Int :=
    let sp : Int × List Char :=
      match r with
      | '+' :: r2 => (1, r2)
      | '-' :: r2 => (-1, r2)
      | r2 => (1, r2)
    let ed := splitDigits sp.2
    if ed.1.isEmpty ∨ ¬ ed.2.isEmpty then none
    else some (sp.1 * (digitsToNat ed.1 : Int))
  /-- `num0 / den0 * 10 ^ e` as a rational, built from integer arithmetic. -/
  applyExp (num0 : Int) (den0 : Nat) (e : Int) : Rat :=
    if 0 ≤ e then mkRat (num0 * (10 : Int) ^ e.toNat) den0
    else mkRat num0 (den0 * 10 ^ (-e).toNat)

/-- JS `Number(string)`: trims, the empty string is `0`, the `Infinity`
forms are infinite, a decimal literal is its value, anything else is NaN. -/
def jsStringToNumber (s : String) : JsNum :=
  let t := jsTrim s
  if t = "" then .val 0
  else if t = "Infinity" ∨ t = "+Infinity" then .posInf
  else if t = "-Infinity" then .negInf
  else
    match parseDecimal t.toList with
    | some q => .val q
    | none => .nan

/-- JS `Number(value)` over a possibly-`undefined` value
(`Number(undefined) = NaN`, `Number(null) = 0`, booleans are 0/1). -/
def jsToNumber : Option Value → JsNum
  | none => .nan
  | some (.str s) => jsStringToNumber s
  | some (.num n) => n
  | some (.bool true) => .val 1
  | some (.bool false) => .val 0
  | some .null => .val 0

/-- JS number printing (`String(number)`); integral values print exactly
as JS does, non-integral values print as `num/den` (see the header note). -/
def jsNumToString : JsNum → String
  | .nan => "NaN"
  | .posInf => "Infinity"
  | .negInf => "-Infinity"
  | .val q => if q.den = 1 then toString q.num else toString q.num ++ "/" ++ toString q.den

/-- JS `String(value)` over a possibly-`undefined` value. -/
def jsToString : Option Value → String
  | none => "undefined"
  | some (.str s) => s
  | some (.num n) => jsNumToString n
  | some (.bool true) => "true"
  | some (.bool false) => "false"
  | some .null => "null"

/-- JS truthiness of a possibly-`undefined` value (`!value` is its negation). -/
def jsTruthy : Option Value → Bool
  | none => false
  | some (.str s) => !(s == "")
  | some (.num .nan) => false
  | some (.num .posInf) => true
  | some (.num .negInf) => true
  | some (.num (.val q)) => !decide (q = 0)
  | some (.bool b) => b
  | some .null => false

/-- JS `value ?? ''` followed by `String(...)`: absent/null values
stringify to the empty string, everything else as `String(value)`. -/
def stringifyCoalesce : Option Value → String
  | none => ""
  | some .null => ""
  | some v => jsToString (some v)

/-- JS `a < b` on numbers: false whenever either operand is NaN. -/
def jsNumLt : JsNum → JsNum → Bool
  | .nan, _ => false
  | _, .nan => false
  | .negInf, .negInf => false
  | .negInf, _ => true
  | _, .negInf => false
  | .posInf, _ => false
  | _, .posInf => true
  | .val a, .val b => decide (a < b)

/-- JS `a <= b` on numbers: false whenever either operand is NaN. -/
def jsNumLe : JsNum → JsNum → Bool
  | .nan, _ => false
  | _, .nan => false
  | .negInf, _ => true
  | _, .posInf => true
  | .posInf, _ => false
  | _, .negInf => false
  | .val a, .val b => decide (a ≤ b)

/-- JS `a > b` on numbers. -/
def jsNumGt (a b : JsNum) : Bool := jsNumLt b a

/-- JS `a >= b` on numbers. -/
def jsNumGe (a b : JsNum) : Bool := jsNumLe b a

/-! ## Data model (`tableSlice.ts`) -/

/-- `TableColumn.type` (`'text' | 'number' | 'date' | 'email' | 'select'`). -/
inductive ColumnType where
  | text
  | number
  | date
  | email
  | select
deriving Repr, DecidableEq

/-- `TableColumn.validation`. -/
structure ColumnValidation where
  required : Option Bool
  min : Option JsNum
  max : Option JsNum
  pattern : Option String
  custom : Option String
deriving Repr, DecidableEq

/-- `TableColumn` of `tableSlice.ts`. -/
structure TableColumn where
  id : String
  label : String
  visible : Bool
  editable : Option Bool
  type : Option ColumnType
  options : Option (List String)
  validation : Option ColumnValidation
deriving Repr, DecidableEq

/-- `TableRow`: the fixed `id` property plus the open string-keyed field
mapping (`[key: string]: string | number | boolean | null | undefined`).
An `undefined` field value is represented by the key being absent. -/
structure Row where
  id : String
  fields : List (String × Value)
deriving Repr, DecidableEq

/-- Lookup of an open field by key (first binding wins; a JS object has
one binding per key). -/
def lookupField : List (String × Value) → String → Option Value
  | [], _ => none
  | (k, v) :: rest, key => if k = key then some v else lookupField rest key

/-- JS property read `row[key]`: the `id` property is the row identity,
every other key reads the open mapping; a missing key is `undefined`. -/
def rowGet (row : Row) (key : String) : Option Value :=
  if key = "id" then some (.str row.id) else lookupField row.fields key

/-- Overwrite (or add) one binding of the open field mapping, as the JS
spread `{ ...row, key: v }` does for the affected key. -/
def setField : List (String × Value) → String → Value → List (String × Value)
  | [], key, v => [(key, v)]
  | (k, w) :: rest, key, v =>
    if k = key then (key, v) :: rest else (k, w) :: setField rest key v

/-- `FilterOperator` of `tableSlice.ts`. -/
inductive FilterOperator where
  | equals
  | contains
  | startsWith
  | endsWith
  | greaterThan
  | lessThan
  | between
  | isEmpty
  | isNotEmpty
deriving Repr, DecidableEq

/-- `ColumnFilter` (`value : string | number`, here any scalar;
`value2` is present only for `between`). -/
structure ColumnFilter where
  column : String
  operator : FilterOperator
  value : Value
  value2 : Option Value
deriving Repr, DecidableEq

/-- `ActivityLog.action` (`'create' | 'update' | 'delete' | 'import' | 'export'`;
the last two are named `importData`/`exportData` because `import` and
`export` are Lean keywords). -/
inductive ActionKind where
  | create
  | update
  | delete
  | importData
  | exportData
deriving Repr, DecidableEq

/-- `ActivityLog` entry of `tableSlice.ts`. -/
structure ActivityLogEntry where
  id : String
  timestamp : String
  action : ActionKind
  rowId : Option String
  details : String
  user : String
deriving Repr, DecidableEq

/-- The sort spec `{ column, direction } | null` (as `Option`). -/
structure SortSpec where
  column : String
  direction : Bool
deriving Repr, DecidableEq

/-- `SavedView` of `tableSlice.ts`. -/
structure SavedView where
  id : String
  name : String
  columns : List TableColumn
  filters : List ColumnFilter
  sort : Option SortSpec
  search : String
  timestamp : String
deriving Repr, DecidableEq

/-- `TableState` of `tableSlice.ts`.  `page` and `pageSize` are JS numbers
that the UI only ever sets to non-negative integers; they are modelled
as `Nat`. -/
structure TableState where
  columns : List TableColumn
  rows : List Row
  search : String
  sort : Option SortSpec
  page : Nat
  pageSize : Nat
  editingRows : List String
  selectedRows : List String
  filters : List ColumnFilter
  activityLog : List ActivityLogEntry
  savedViews : List SavedView
  validationErrors : List (String × List (String × String))
  showAnalytics : Bool
deriving Repr, DecidableEq

/-- The `initialState` of `tableSlice.ts`. -/
def initialState : TableState where
  columns :=
    [ { id := "name", label := "Name", visible := true, editable := some true,
        type := some .text, options := none,
        validation := some { required := some true, min := none, max := none, pattern := none, custom := none } },
      { id := "email", label := "Email", visible := true, editable := some true,
        type := some .email, options := none,
        validation := some { required := some true, min := none, max := none,
                             pattern := some "^[\\w-\\.]+@([\\w-]+\\.)+[\\w-]\x7b2,4\x7d$", custom := none } },
      { id := "age", label := "Age", visible := true, editable := some true,
        type := some .number, options := none,
        validation := some { required := none, min := some (.val 18), max := some (.val 100), pattern := none, custom := none } },
      { id := "role", label := "Role", visible := true, editable := some true,
        type := some .select, options := some ["Admin", "User", "Manager", "Developer"],
        validation := some { required := some true, min := none, max := none, pattern := none, custom := none } } ]
  rows := []
  search := ""
  sort := none
  page := 0
  pageSize := 10
  editingRows := []
  selectedRows := []
  filters := []
  activityLog := []
  savedViews := []
  validationErrors := []
  showAnalytics := false

/-! ## Reducers (`tableSlice.ts`) -/

/-- Reducer `setColumns`. -/
def setColumns (s : TableState) (cols : List TableColumn) : TableState :=
  { s with columns := cols }

/-- Reducer `setRows`. -/
def setRows (s : TableState) (rows : List Row) : TableState :=
  { s with rows := rows }

/-- Reducer `addRow` (`state.rows.push(action.payload)`). -/
def addRow (s : TableState) (row : Row) : TableState :=
  { s with rows := s.rows ++ [row] }

/-- Reducer `setSearch`. -/
def setSearch (s : TableState) (search : String) : TableState :=
  { s with search := search }

/-- Reducer `setSort`. -/
def setSort (s : TableState) (sort : Option SortSpec) : TableState :=
  { s with sort := sort }

/-- Reducer `setPage`. -/
def setPage (s : TableState) (page : Nat) : TableState :=
  { s with page := page }

/-- Reducer `setPageSize`. -/
def setPageSize (s : TableState) (pageSize : Nat) : TableState :=
  { s with pageSize := pageSize }

/-- Reducer `setSelectedRows`. -/
def setSelectedRows (s : TableState) (ids : List String) : TableState :=
  { s with selectedRows := ids }

/-- Reducer `toggleRowSelection`: remove the id if present
(`filter(id => id !== rowId)`), append it (`push`) otherwise. -/
def toggleRowSelection (s : TableState) (rowId : String) : TableState :=
  if s.selectedRows.contains rowId then
    { s with selectedRows := s.selectedRows.filter (fun id => !(id == rowId)) }
  else
    { s with selectedRows := s.selectedRows ++ [rowId] }

/-- Reducer `setFilters`. -/
def setFilters (s : TableState) (fs : List ColumnFilter) : TableState :=
  { s with filters := fs }

/-- Reducer `addFilter` (`state.filters.push(...)`). -/
def addFilter (s : TableState) (f : ColumnFilter) : TableState :=
  { s with filters := s.filters ++ [f] }

/-- Reducer `removeFilter` (`state.filters.splice(index, 1)`: delete the
element at the index, no-op when the index is out of range). -/
def removeFilter (s : TableState) (index : Nat) : TableState :=
  { s with filters := s.filters.eraseIdx index }

/-- The `logActivity` payload (`Omit<ActivityLog, 'id' | 'timestamp' | 'user'>`). -/
structure LogPayload where
  action : ActionKind
  rowId : Option String
  details : String
deriving Repr, DecidableEq

/-- The entry `logActivity` builds: generated id and timestamp plus the
constant actor, merged with the payload. -/
def mkLogEntry (newId newTimestamp : String) (p : LogPayload) : ActivityLogEntry :=
  { id := newId, timestamp := newTimestamp, user := "Current User",
    action := p.action, rowId := p.rowId, details := p.details }

/-- Reducer `logActivity`: prepend the new entry (`unshift`), then keep
only the most recent 1000 entries.  The generated id (`Date.now()`) and
timestamp (`new Date().toISOString()`) are injected parameters. -/
def logActivity (s : TableState) (newId newTimestamp : String) (p : LogPayload) : TableState :=
  let log := mkLogEntry newId newTimestamp p
  let newLog := log :: s.activityLog
  { s with activityLog := if newLog.length > 1000 then newLog.take 1000 else newLog }

/-- The `saveView` payload (`Omit<SavedView, 'id' | 'timestamp'>`). -/
structure SaveViewPayload where
  name : String
  columns : List TableColumn
  filters : List ColumnFilter
  sort : Option SortSpec
  search : String
deriving Repr, DecidableEq

/-- Reducer `saveView`: append a view with generated id and timestamp
(injected parameters) to `savedViews`. -/
def saveView (s : TableState) (newId newTimestamp : String) (p : SaveViewPayload) : TableState :=
  { s with savedViews := s.savedViews ++
      [{ id := newId, timestamp := newTimestamp, name := p.name,
         columns := p.columns, filters := p.filters, sort := p.sort, search := p.search }] }

/-- Reducer `loadView`: find the saved view by id; when found, overwrite
the live columns/filters/sort/search and reset `page` to 0; otherwise do
nothing. -/
def loadView (s : TableState) (viewId : String) : TableState :=
  match s.savedViews.find? (fun v => v.id == viewId) with
  | some view =>
    { s with columns := view.columns, filters := view.filters,
             sort := view.sort, search := view.search, page := 0 }
  | none => s

/-- Reducer `deleteSavedView`. -/
def deleteSavedView (s : TableState) (viewId : String) : TableState :=
  { s with savedViews := s.savedViews.filter (fun v => !(v.id == viewId)) }

/-- Reducer `bulkDeleteRows`: one synchronous state transition removing
every row whose id is in the payload (`!payload.includes(row.id)`) and
clearing the selection; there is no intermediate state. -/
def bulkDeleteRows (s : TableState) (ids : List String) : TableState :=
  { s with rows := s.rows.filter (fun row => !(ids.contains row.id)),
           selectedRows := [] }

/-- Reducer `bulkUpdateRows`: merge the shared partial field set into
every row whose id is in `ids`, then clear the selection. -/
def bulkUpdateRows (s : TableState) (ids : List String) (updates : List (String × Value)) : TableState :=
  let upd : Row → Row := fun row =>
    if ids.contains row.id then
      { row with fields := updates.foldl (fun fs kv => setField fs kv.1 kv.2) row.fields }
    else row
  { s with rows := s.rows.map upd, selectedRows := [] }

/-! ## Query pipeline (`TableManager`, helper `filterRows`) -/

/-- The per-column predicate of the search stage:
`col.visible && String(row[col.id] ?? '').toLowerCase().includes(lower)`. -/
def searchColMatch (row : Row) (lower : String) (col : TableColumn) : Bool :=
  col.visible && strIncludes (jsToLower (stringifyCoalesce (rowGet row col.id))) lower

/-- Stage 1 of `filterRows`: when the search text is truthy (non-empty),
keep the rows for which some visible column matches. -/
def applySearch (rows : List Row) (columns : List TableColumn) (search : String) : List Row :=
  if search ≠ "" then
    let lower := jsToLower search
    rows.filter (fun row => columns.any (searchColMatch row lower))
  else rows

/-- One filter applied to one row: the `switch (filter.operator)` of
`filterRows`.  `isEmpty` is `!value || String(value).trim() === ''` and
`isNotEmpty` is `value && String(value).trim() !== ''` (JS truthiness). -/
def evalFilter (row : Row) (filter : ColumnFilter) : Bool :=
  let value := rowGet row filter.column
  let filterValue := filter.value
  match filter.operator with
  | .equals => jsToLower (jsToString value) == jsToLower (jsToString (some filterValue))
  | .contains => strIncludes (jsToLower (jsToString value)) (jsToLower (jsToString (some filterValue)))
  | .startsWith => (jsToLower (jsToString (some filterValue))).toList.isPrefixOf (jsToLower (jsToString value)).toList
  | .endsWith => (jsToLower (jsToString (some filterValue))).toList.isSuffixOf (jsToLower (jsToString value)).toList
  | .greaterThan => jsNumGt (jsToNumber value) (jsToNumber (some filterValue))
  | .lessThan => jsNumLt (jsToNumber value) (jsToNumber (some filterValue))
  | .between =>
    jsNumGe (jsToNumber value) (jsToNumber (some filterValue)) &&
      jsNumLe (jsToNumber value) (jsToNumber filter.value2)
  | .isEmpty => !(jsTruthy value) || (jsTrim (jsToString value) == "")
  | .isNotEmpty => jsTruthy value && !(jsTrim (jsToString value) == "")

/-- Stage 2 of `filterRows`: `if (filters && filters.length > 0)`, keep
the rows satisfying every filter (`filters.every(...)`). -/
def applyFilters (rows : List Row) (filters : List ColumnFilter) : List Row :=
  if filters.length > 0 then
    rows.filter (fun row => filters.all (fun filter => evalFilter row filter))
  else rows

/-- `filterRows(rows, columns, search, filters)` of `TableManager`:
the search stage followed by the advanced-filter stage. -/
def filterRows (rows : List Row) (columns : List TableColumn) (search : String)
    (filters : List ColumnFilter) : List Row :=
  applyFilters (applySearch rows columns search) filters

/-- The `pagedRows` memo of `TableManager`:
`sortedRows.slice(page * pageSize, page * pageSize + pageSize)` (with the
short-circuit on an empty input); `Array.slice` clamps to the bounds. -/
def pagedRows (sortedRows : List Row) (page pageSize : Nat) : List Row :=
  if sortedRows.length = 0 then []
  else (sortedRows.drop (page * pageSize)).take pageSize

/-! ## Export projector (`AdvancedExport`, `getExportData`) -/

/-- Export scope. -/
inductive ExportScope where
  | all
  | visible
  | selected
  | filtered
deriving Repr, DecidableEq

/-- One filter applied to one row inside `getExportData` (scope
`filtered`).  Identical to `evalFilter` except for `isEmpty`/`isNotEmpty`,
which here test `value === null || value === undefined` explicitly
instead of JS truthiness. -/
def exportEvalFilter (row : Row) (filter : ColumnFilter) : Bool :=
  let value := rowGet row filter.column
  let filterValue := filter.value
  match filter.operator with
  | .equals => jsToLower (jsToString value) == jsToLower (jsToString (some filterValue))
  | .contains => strIncludes (jsToLower (jsToString value)) (jsToLower (jsToString (some filterValue)))
  | .startsWith => (jsToLower (jsToString (some filterValue))).toList.isPrefixOf (jsToLower (jsToString value)).toList
  | .endsWith => (jsToLower (jsToString (some filterValue))).toList.isSuffixOf (jsToLower (jsToString value)).toList
  | .greaterThan => jsNumGt (jsToNumber value) (jsToNumber (some filterValue))
  | .lessThan => jsNumLt (jsToNumber value) (jsToNumber (some filterValue))
  | .between =>
    jsNumGe (jsToNumber value) (jsToNumber (some filterValue)) &&
      jsNumLe (jsToNumber value) (jsToNumber filter.value2)
  | .isEmpty =>
    decide (value = some .null) || decide (value = none) || (jsTrim (jsToString value) == "")
  | .isNotEmpty =>
    !decide (value = some .null) && !decide (value = none) && !(jsTrim (jsToString value) == "")

/-- `getExportData` of `AdvancedExport`: the scope-based row/column
projection handed to the encoders. -/
def getExportData (scope : ExportScope) (rows : List Row) (columns : List TableColumn)
    (selectedRows : List String) (search : String) (filters : List ColumnFilter) :
    List Row × List TableColumn :=
  match scope with
  | .visible => (rows, columns.filter (fun col => col.visible))
  | .selected =>
    if selectedRows.length = 0 then ([], [])
    else (rows.filter (fun row => selectedRows.contains row.id),
          columns.filter (fun col => col.visible))
  | .filtered =>
    let exportRows :=
      if search ≠ "" then
        let searchLower := jsToLower search
        rows.filter (fun row => columns.any (searchColMatch row searchLower))
      else rows
    let exportRows := exportRows.filter (fun row =>
      filters.all (fun filter => exportEvalFilter row filter))
    (exportRows, columns.filter (fun col => col.visible))
  | .all => (rows, columns.filter (fun col => col.visible))

/-! ## Bulk duplicate (`BulkActions`, `handleBulkDuplicate`) -/

/-- One duplicated row: the JS spread that copies all fields, replaces
the id by a fresh `uuidv4()`, and replaces the `name` field by the
template literal interpolating `row.name` (stringified, so an absent
name reads "undefined") followed by the `" (Copy)"` marker. -/
def duplicateOf (freshId : String) (row : Row) : Row :=
  { id := freshId,
    fields := setField row.fields "name" (.str (jsToString (rowGet row "name") ++ " (Copy)")) }

/-- `handleBulkDuplicate` of `BulkActions`: collect the selected rows,
build the duplicates (with injected fresh identities, one per index),
`addRow` each duplicate, log one `create` activity (with injected log
id/timestamp), and dispatch `setSelectedRows([])`. -/
def handleBulkDuplicate (s : TableState) (fresh : Nat → String) (logId logTs : String) : TableState :=
  let selectedRowsData := s.rows.filter (fun row => s.selectedRows.contains row.id)
  let duplicatedRows := selectedRowsData.enum.map (fun p => duplicateOf (fresh p.1) p.2)
  let s1 := duplicatedRows.foldl addRow s
  let s2 := logActivity s1 logId logTs
    { action := .create, rowId := none,
      details := "Duplicated " ++ toString s.selectedRows.length ++ " rows" }
  setSelectedRows s2 []

/-! ## Concrete fixtures for witnesses and counterexamples -/

/-- A row whose `name` column holds the string "John". -/
def johnRow : Row := { id := "1", fields := [("name", .str "John")] }

/-- A row whose `x` column holds the number 0. -/
def zeroRow : Row := { id := "2", fields := [("x", .num (.val 0))] }

/-- A visible text column with identity `name`. -/
def nameColumn : TableColumn :=
  { id := "name", label := "Name", visible := true, editable := some true,
    type := some .text, options := none, validation := none }

/-- A visible column with identity `x`. -/
def xColumn : TableColumn :=
  { id := "x", label := "X", visible := true, editable := some true,
    type := some .number, options := none, validation := none }

/-- An `isEmpty` filter on column `x`. -/
def isEmptyFilterX : ColumnFilter :=
  { column := "x", operator := .isEmpty, value := .str "", value2 := none }

/-! ## Helper lemmas -/

/-- `List.all` only depends on the predicate's values on the list. -/
theorem all_congr_mem {α : Type} (p q : α → Bool) :
    ∀ xs : List α, (∀ x ∈ xs, p x = q x) → xs.all p = xs.all q := by
  intro xs
  induction xs with
  | nil => intro _; rfl
  | cons y ys ih =>
    intro hxs
    rw [List.all_cons, List.all_cons, hxs y (List.mem_cons_self y ys),
      ih (fun x hx => hxs x (List.mem_cons_of_mem y hx))]

/-- Looking up the key just written by `setField` yields the new value. -/
theorem lookupField_setField_self (fs : List (String × Value)) (k : String) (v : Value) :
    lookupField (setField fs k v) k = some v := by
  induction fs with
  | nil => simp [setField, lookupField]
  | cons kv rest ih =>
    by_cases hk : kv.1 = k
    · simp [setField, hk, lookupField]
    · simp only [setField]
      rw [if_neg hk]
      simpa [lookupField, hk] using ih

/-- `setField` leaves every other key's lookup unchanged. -/
theorem lookupField_setField_other (fs : List (String × Value)) (k : String) (v : Value)
    (k2 : String) (h : k2 ≠ k) :
    lookupField (setField fs k v) k2 = lookupField fs k2 := by
  induction fs with
  | nil =>
    simp only [setField, lookupField]
    rw [if_neg (Ne.symm h)]
  | cons kv rest ih =>
    obtain ⟨k1, v1⟩ := kv
    simp only [setField]
    by_cases hk : k1 = k
    · rw [if_pos hk]
      simp only [lookupField]
      rw [if_neg (Ne.symm h), if_neg (by rw [hk]; exact Ne.symm h)]
    · rw [if_neg hk]
      simp only [lookupField]
      by_cases hk2 : k1 = k2
      · rw [if_pos hk2, if_pos hk2]
      · rw [if_neg hk2, if_neg hk2]
        exact ih

/-- Folding `addRow` appends the rows and changes nothing else. -/
theorem foldl_addRow (l : List Row) : ∀ s : TableState,
    l.foldl addRow s = { s with rows := s.rows ++ l } := by
  induction l with
  | nil => intro s; simp
  | cons a t ih =>
    intro s
    show t.foldl addRow (addRow s a) = _
    rw [ih]
    simp [addRow]

/-! ## C1 — isEmpty / isNotEmpty semantics of `filterRows` -/

/-- C1, counterexample: in `filterRows` the operator `isEmpty` ACCEPTS the
number 0 (the code tests JS truthiness, `!value`), although 0 is neither
null/undefined nor stringify-and-trim empty — refuting the claim that
`isEmpty` accepts a value iff it is null/undefined or trim-empty and that
0 is not empty. -/
theorem C1_counterexample :
    evalFilter zeroRow isEmptyFilterX = true ∧
    ¬(rowGet zeroRow "x" = none ∨ rowGet zeroRow "x" = some .null ∨
      jsTrim (jsToString (rowGet zeroRow "x")) = "") := by
  decide

/-- C1 (amended): in `filterRows`, `isEmpty` accepts a value iff the value
is JS-falsy (null, undefined, 0, NaN, false or the empty string) or its
string representation trims to the empty string — so the number 0 and the
boolean false ARE empty — and `isNotEmpty` accepts iff `isEmpty` rejects. -/
theorem C1_isEmpty_truthiness (row : Row) (col : String) (fv : Value) (fv2 : Option Value) :
    evalFilter row { column := col, operator := .isEmpty, value := fv, value2 := fv2 } =
      (!(jsTruthy (rowGet row col)) || (jsTrim (jsToString (rowGet row col)) == "")) ∧
    evalFilter row { column := col, operator := .isNotEmpty, value := fv, value2 := fv2 } =
      !(evalFilter row { column := col, operator := .isEmpty, value := fv, value2 := fv2 }) := by
  refine ⟨rfl, ?_⟩
  simp only [evalFilter]
  cases jsTruthy (rowGet row col) <;>
    cases jsTrim (jsToString (rowGet row col)) == "" <;> rfl

/-! ## C2 — export scope `filtered` versus the query pipeline -/

/-- C2, counterexample: on a row holding the number 0 and a single
`isEmpty` filter, the export projector under scope `filtered` drops the
row (its `isEmpty` tests null/undefined) while `filterRows` keeps it (its
`isEmpty` tests JS truthiness), so the two row sequences differ. -/
theorem C2_counterexample :
    (getExportData .filtered [zeroRow] [xColumn] [] "" [isEmptyFilterX]).1 ≠
      filterRows [zeroRow] [xColumn] "" [isEmptyFilterX] := by
  decide

/-- C2 (amended): for every rows, columns, search text, filter set and
selection IN WHICH NO FILTER USES isEmpty OR isNotEmpty, the row sequence
produced by the export projector under scope `filtered` equals the row
sequence produced by `filterRows` on the same inputs (the two
implementations differ only in those two operators). -/
theorem C2_export_filtered_eq_filterRows (rows : List Row) (columns : List TableColumn)
    (selectedRows : List String) (search : String) (filters : List ColumnFilter)
    (h : ∀ f ∈ filters, f.operator ≠ .isEmpty ∧ f.operator ≠ .isNotEmpty) :
    (getExportData .filtered rows columns selectedRows search filters).1 =
      filterRows rows columns search filters := by
  have hpt : ∀ row f, f ∈ filters → exportEvalFilter row f = evalFilter row f := by
    intro row f hf
    obtain ⟨h1, h2⟩ := h f hf
    rcases f with ⟨c, op, v, v2⟩
    cases op <;> first
      | rfl
      | exact absurd rfl h1
      | exact absurd rfl h2
  show (applySearch rows columns search).filter
      (fun row => filters.all fun filter => exportEvalFilter row filter) =
    applyFilters (applySearch rows columns search) filters
  generalize applySearch rows columns search = rows1
  unfold applyFilters
  by_cases hlen : filters.length > 0
  · rw [if_pos hlen]
    exact List.filter_congr (fun row _ =>
      all_congr_mem _ _ filters (fun f hf => hpt row f hf))
  · rw [if_neg hlen]
    have : filters = [] := List.length_eq_zero.mp (by omega)
    subst this
    simp

/-- C2, witness: on a concrete state with one greater-than filter the
amended equivalence applies and its hypothesis is discharged. -/
theorem C2_export_filtered_eq_filterRows_witness :
    (∀ f ∈ [ColumnFilter.mk "age" .greaterThan (.str "18") none],
        f.operator ≠ .isEmpty ∧ f.operator ≠ .isNotEmpty) ∧
    (getExportData .filtered [johnRow] [nameColumn] []
        "" [ColumnFilter.mk "age" .greaterThan (.str "18") none]).1 =
      filterRows [johnRow] [nameColumn] "" [ColumnFilter.mk "age" .greaterThan (.str "18") none] :=
  ⟨by decide, C2_export_filtered_eq_filterRows _ _ _ _ _ (by decide)⟩

/-! ## C3 — duplicate-selected and the selection set -/

/-- A demo state with one row which is selected. -/
def dupDemoState : TableState :=
  { initialState with rows := [johnRow], selectedRows := ["1"] }

/-- C3, counterexample: `handleBulkDuplicate` ends by dispatching
`setSelectedRows([])`, so after duplicating, the selection set is empty
and NOT equal to the selection before — refuting the claim that
duplication does not clear the selection. -/
theorem C3_counterexample :
    (handleBulkDuplicate dupDemoState (fun n => "copy-" ++ toString n) "99" "ts").selectedRows ≠
      dupDemoState.selectedRows := by
  decide

/-- C3 (amended): duplicate-selected adds, for each selected row in
order, one new row copying all its fields under the injected fresh
identity with the `" (Copy)"` marker appended to the stringified name
field — and it DOES clear the selection: the selection set afterwards is
empty. -/
theorem C3_duplicate_behavior (s : TableState) (fresh : Nat → String) (logId logTs : String) :
    (handleBulkDuplicate s fresh logId logTs).selectedRows = [] ∧
    (handleBulkDuplicate s fresh logId logTs).rows =
      s.rows ++ ((s.rows.filter fun row => s.selectedRows.contains row.id).enum.map
        fun p => duplicateOf (fresh p.1) p.2) ∧
    (∀ freshId row, (duplicateOf freshId row).id = freshId ∧
      rowGet (duplicateOf freshId row) "name" =
        some (.str (jsToString (rowGet row "name") ++ " (Copy)")) ∧
      (∀ k, k ≠ "name" → k ≠ "id" →
        rowGet (duplicateOf freshId row) k = rowGet row k)) := by
  refine ⟨rfl, ?_, ?_⟩
  · have hfold := foldl_addRow
      ((s.rows.filter fun row => s.selectedRows.contains row.id).enum.map
        fun p => duplicateOf (fresh p.1) p.2) s
    show (((s.rows.filter fun row => s.selectedRows.contains row.id).enum.map
        fun p => duplicateOf (fresh p.1) p.2).foldl addRow s).rows = _
    rw [hfold]
  · intro freshId row
    refine ⟨rfl, ?_, ?_⟩
    · show rowGet _ "name" = _
      unfold rowGet duplicateOf
      rw [if_neg (by decide : ¬("name" : String) = "id")]
      exact lookupField_setField_self _ _ _
    · intro k hk1 hk2
      unfold rowGet duplicateOf
      rw [if_neg hk2, if_neg hk2]
      exact lookupField_setField_other _ _ _ _ hk1

/-- C3, witness: the amended statement applied at a concrete selected
state; the inner hypotheses are discharged at the concrete key `email`. -/
theorem C3_duplicate_behavior_witness :
    (handleBulkDuplicate dupDemoState (fun n => "copy-" ++ toString n) "99" "ts").selectedRows = [] ∧
    rowGet (duplicateOf "copy-0" johnRow) "email" = rowGet johnRow "email" :=
  ⟨(C3_duplicate_behavior dupDemoState (fun n => "copy-" ++ toString n) "99" "ts").1,
   ((C3_duplicate_behavior dupDemoState (fun n => "copy-" ++ toString n) "99" "ts").2.2
      "copy-0" johnRow).2.2 "email" (by decide) (by decide)⟩

/-! ## C4 — saved-view round trip -/

/-- A mutation of the live query state (columns, filters, sort, search):
the reducers a user can fire between saving and loading a view. -/
inductive QueryMutation where
  | columns (cols : List TableColumn)
  | filters (fs : List ColumnFilter)
  | filterAdd (f : ColumnFilter)
  | filterRemove (i : Nat)
  | sort (o : Option SortSpec)
  | search (t : String)
deriving Repr

/-- Dispatch one query-state mutation to its reducer. -/
def applyMutation (s : TableState) : QueryMutation → TableState
  | .columns cols => setColumns s cols
  | .filters fs => setFilters s fs
  | .filterAdd f => addFilter s f
  | .filterRemove i => removeFilter s i
  | .sort o => setSort s o
  | .search t => setSearch s t

/-- Dispatch a sequence of query-state mutations. -/
def applyMutations (s : TableState) (ms : List QueryMutation) : TableState :=
  ms.foldl applyMutation s

/-- No query-state mutation touches the saved views. -/
theorem applyMutation_savedViews (s : TableState) (m : QueryMutation) :
    (applyMutation s m).savedViews = s.savedViews := by
  cases m <;> rfl

/-- No sequence of query-state mutations touches the saved views. -/
theorem applyMutations_savedViews (ms : List QueryMutation) : ∀ s : TableState,
    (applyMutations s ms).savedViews = s.savedViews := by
  induction ms with
  | nil => intro s; rfl
  | cons m t ih =>
    intro s
    show (applyMutations (applyMutation s m) t).savedViews = _
    rw [ih, applyMutation_savedViews]

/-- `find?` skips a prefix on which the predicate is false. -/
theorem find?_append_of_none {α : Type} (p : α → Bool) (A B : List α)
    (hA : ∀ x ∈ A, p x = false) : (A ++ B).find? p = B.find? p := by
  induction A with
  | nil => rfl
  | cons a t ih =>
    have ha : p a = false := hA a (by simp)
    simp only [List.cons_append, List.find?]
    rw [ha]
    exact ih (fun x hx => hA x (by simp [hx]))

/-- `loadView` on a found view overwrites columns/filters/sort/search and
resets the page. -/
theorem loadView_found (t : TableState) (vid : String) (view : SavedView)
    (hfind : t.savedViews.find? (fun v => v.id == vid) = some view) :
    loadView t vid = { t with columns := view.columns, filters := view.filters,
                              sort := view.sort, search := view.search, page := 0 } := by
  unfold loadView
  rw [hfind]

/-- C4: saving a view capturing the current columns/filters/sort/search
(under a fresh view identity), then performing any sequence of mutations
to the live columns, filters, sort and search, then loading the saved
view by its identity, restores columns, filters, sort and search exactly
as captured at save time, resets the page to 0, and leaves the rows and
the selection of the pre-load state unchanged; and loading an identity
with no saved view leaves the entire state unchanged. -/
theorem C4_view_roundtrip (s : TableState) (name vid ts : String) (muts : List QueryMutation)
    (hfresh : ∀ v ∈ s.savedViews, v.id ≠ vid) :
    ((loadView (applyMutations (saveView s vid ts
        { name := name, columns := s.columns, filters := s.filters,
          sort := s.sort, search := s.search }) muts) vid).columns = s.columns ∧
     (loadView (applyMutations (saveView s vid ts
        { name := name, columns := s.columns, filters := s.filters,
          sort := s.sort, search := s.search }) muts) vid).filters = s.filters ∧
     (loadView (applyMutations (saveView s vid ts
        { name := name, columns := s.columns, filters := s.filters,
          sort := s.sort, search := s.search }) muts) vid).sort = s.sort ∧
     (loadView (applyMutations (saveView s vid ts
        { name := name, columns := s.columns, filters := s.filters,
          sort := s.sort, search := s.search }) muts) vid).search = s.search ∧
     (loadView (applyMutations (saveView s vid ts
        { name := name, columns := s.columns, filters := s.filters,
          sort := s.sort, search := s.search }) muts) vid).page = 0 ∧
     (loadView (applyMutations (saveView s vid ts
        { name := name, columns := s.columns, filters := s.filters,
          sort := s.sort, search := s.search }) muts) vid).rows =
       (applyMutations (saveView s vid ts
        { name := name, columns := s.columns, filters := s.filters,
          sort := s.sort, search := s.search }) muts).rows ∧
     (loadView (applyMutations (saveView s vid ts
        { name := name, columns := s.columns, filters := s.filters,
          sort := s.sort, search := s.search }) muts) vid).selectedRows =
       (applyMutations (saveView s vid ts
        { name := name, columns := s.columns, filters := s.filters,
          sort := s.sort, search := s.search }) muts).selectedRows) ∧
    (∀ (t : TableState) (missingId : String),
      (∀ v ∈ t.savedViews, v.id ≠ missingId) → loadView t missingId = t) := by
  constructor
  · have hview : (applyMutations (saveView s vid ts
        { name := name, columns := s.columns, filters := s.filters,
          sort := s.sort, search := s.search }) muts).savedViews =
        s.savedViews ++
          [{ id := vid, timestamp := ts, name := name, columns := s.columns,
             filters := s.filters, sort := s.sort, search := s.search }] := by
      rw [applyMutations_savedViews]
      rfl
    have hfind : (applyMutations (saveView s vid ts
        { name := name, columns := s.columns, filters := s.filters,
          sort := s.sort, search := s.search }) muts).savedViews.find?
          (fun v => v.id == vid) =
        some { id := vid, timestamp := ts, name := name, columns := s.columns,
               filters := s.filters, sort := s.sort, search := s.search } := by
      rw [hview,
        find?_append_of_none _ _ _
          (fun x hx => beq_eq_false_iff_ne.mpr (hfresh x hx))]
      simp [List.find?]
    rw [loadView_found _ _ _ hfind]
    exact ⟨rfl, rfl, rfl, rfl, rfl, rfl, rfl⟩
  · intro t missingId hmiss
    unfold loadView
    have hnone : t.savedViews.find? (fun v => v.id == missingId) = none := by
      rw [List.find?_eq_none]
      intro x hx
      simp only [Bool.not_eq_true]
      exact beq_eq_false_iff_ne.mpr (hmiss x hx)
    rw [hnone]

/-- C4, witness: the round trip applied at a concrete state (the empty
initial state, one search mutation), with the freshness hypothesis
discharged there. -/
theorem C4_view_roundtrip_witness :
    (∀ v ∈ initialState.savedViews, v.id ≠ "1700000000000") ∧
    (loadView (applyMutations (saveView initialState "1700000000000" "t"
        { name := "v", columns := initialState.columns, filters := initialState.filters,
          sort := initialState.sort, search := initialState.search }) [.search "zzz"])
        "1700000000000").search = initialState.search :=
  ⟨by simp [initialState],
   ((C4_view_roundtrip initialState "v" "1700000000000" "t" [.search "zzz"]
      (by simp [initialState])).1).2.2.2.1⟩

/-! ## C5 — activity log bound -/

/-- Truncating after an appended already-truncated tail is the same as
truncating once. -/
theorem take_append_take {α : Type} (A B : List α) (k : Nat) :
    (A ++ B.take k).take k = (A ++ B).take k := by
  rw [List.take_append_eq_append_take, List.take_append_eq_append_take,
    List.take_take, Nat.min_eq_left (Nat.sub_le k A.length)]

/-- The conditional truncation of `logActivity` is an unconditional
`take 1000` (taking more than the length is the identity). -/
theorem logActivity_activityLog (s : TableState) (newId newTs : String) (p : LogPayload) :
    (logActivity s newId newTs p).activityLog =
      (mkLogEntry newId newTs p :: s.activityLog).take 1000 := by
  unfold logActivity
  dsimp only
  split
  · rfl
  · next h => exact (List.take_of_length_le (by omega)).symm

/-- `mkLogEntry` uncurried over an (id, timestamp, payload) triple. -/
def mkLogEntryT (t : String × String × LogPayload) : ActivityLogEntry :=
  mkLogEntry t.1 t.2.1 t.2.2

/-- A sequence of `logActivity` calls, each with its injected id and
timestamp. -/
def appendAll (s : TableState) (items : List (String × String × LogPayload)) : TableState :=
  items.foldl (fun st it => logActivity st it.1 it.2.1 it.2.2) s

/-- After any sequence of appends the log is the newest-first entry list
truncated to 1000. -/
theorem appendAll_activityLog (items : List (String × String × LogPayload)) :
    ∀ s : TableState, s.activityLog.length ≤ 1000 →
      (appendAll s items).activityLog =
        ((items.map mkLogEntryT).reverse ++ s.activityLog).take 1000 := by
  induction items with
  | nil =>
    intro s hs
    simp only [appendAll, List.foldl_nil, List.map_nil, List.reverse_nil, List.nil_append]
    exact (List.take_of_length_le hs).symm
  | cons a t ih =>
    intro s hs
    show (appendAll (logActivity s a.1 a.2.1 a.2.2) t).activityLog = _
    rw [ih (logActivity s a.1 a.2.1 a.2.2)
        (by rw [logActivity_activityLog]; exact le_trans (List.length_take_le _ _) (le_refl _)),
      logActivity_activityLog, take_append_take]
    simp [mkLogEntryT, List.append_assoc]

/-- C5: after 1001 appends to an initially empty log, the log holds
exactly 1000 entries, it is exactly the newest-first sequence of the last
1000 appended entries (so the very first appended entry is evicted), and
its head is the entry of the last append. -/
theorem C5_activity_log_bound (s : TableState) (items : List (String × String × LogPayload))
    (h0 : s.activityLog = []) (h1 : items.length = 1001) :
    (appendAll s items).activityLog.length = 1000 ∧
    (appendAll s items).activityLog = ((items.drop 1).map mkLogEntryT).reverse ∧
    (appendAll s items).activityLog.head? = (items.map mkLogEntryT).getLast? := by
  match items, h1 with
  | i0 :: rest, h1 =>
    have hrest : rest.length = 1000 := by simpa using h1
    have hlog : (appendAll s (i0 :: rest)).activityLog = (rest.map mkLogEntryT).reverse := by
      rw [appendAll_activityLog (i0 :: rest) s (by rw [h0]; simp), h0]
      simp only [List.append_nil, List.map_cons, List.reverse_cons]
      rw [List.take_left' (by simp [hrest])]
    refine ⟨by rw [hlog]; simp [hrest], by simpa using hlog, ?_⟩
    rw [hlog, List.head?_reverse]
    match rest, hrest with
    | r1 :: rest2, _ =>
      simp only [List.map_cons]
      rw [List.getLast?_cons_cons]

/-- C5, witness: 1001 concrete appends to the initial (empty-log) state. -/
theorem C5_activity_log_bound_witness :
    initialState.activityLog = [] ∧
    ((List.range 1001).map
        (fun n => (toString n, toString n, LogPayload.mk .create none ""))).length = 1001 ∧
    (appendAll initialState ((List.range 1001).map
        (fun n => (toString n, toString n, LogPayload.mk .create none "")))).activityLog.length
      = 1000 :=
  ⟨rfl, by simp,
   (C5_activity_log_bound initialState _ rfl (by simp)).1⟩

/-! ## C6 — bulk delete and selection -/

/-- C6: after `bulkDeleteRows(ids)` no surviving row's identity is in
`ids`, the surviving rows are a subsequence of the prior rows (prior
relative order), every prior row whose identity is not in `ids` survives,
and the selection set is empty.  (`bulkDeleteRows` is a single reducer
producing one state, so there is no intermediate observable state.) -/
theorem C6_bulk_delete (s : TableState) (ids : List String) :
    (∀ r ∈ (bulkDeleteRows s ids).rows, ¬ r.id ∈ ids) ∧
    List.Sublist (bulkDeleteRows s ids).rows s.rows ∧
    (∀ r ∈ s.rows, ¬ r.id ∈ ids → r ∈ (bulkDeleteRows s ids).rows) ∧
    (bulkDeleteRows s ids).selectedRows = [] := by
  refine ⟨?_, ?_, ?_, rfl⟩
  · intro r hr
    have hr2 : r ∈ s.rows.filter (fun row => !(ids.contains row.id)) := hr
    have hp := (List.mem_filter.mp hr2).2
    simp only [Bool.not_eq_true'] at hp
    intro hmem
    simp [hmem] at hp
  · exact List.filter_sublist s.rows
  · intro r hr hnot
    show r ∈ s.rows.filter (fun row => !(ids.contains row.id))
    exact List.mem_filter.mpr ⟨hr, by simp [hnot]⟩

/-- A demo state with two rows, the second of which is selected. -/
def twoRowState : TableState :=
  { initialState with rows := [johnRow, zeroRow], selectedRows := ["2"] }

/-- C6, witness: on a concrete two-row state, the surviving row's
identity is not among the deleted ones, it survives, and the selection is
cleared. -/
theorem C6_bulk_delete_witness :
    johnRow ∈ twoRowState.rows ∧
    ¬ johnRow.id ∈ ["2"] ∧
    johnRow ∈ (bulkDeleteRows twoRowState ["2"]).rows ∧
    (bulkDeleteRows twoRowState ["2"]).selectedRows = [] :=
  ⟨by decide, by decide,
   (C6_bulk_delete twoRowState ["2"]).2.2.1 johnRow (by decide) (by decide),
   (C6_bulk_delete twoRowState ["2"]).2.2.2⟩

/-! ## C7 — pagination -/

/-- `pagedRows` is the clamped slice, whatever the input. -/
theorem pagedRows_eq_drop_take (l : List Row) (page pageSize : Nat) :
    pagedRows l page pageSize = (l.drop (page * pageSize)).take pageSize := by
  unfold pagedRows
  split
  · next h =>
    have : l = [] := List.length_eq_zero.mp h
    subst this
    simp
  · rfl

/-- Concatenating the first `n` pages of size `s` yields the first `n*s`
elements. -/
theorem pages_join_take (l : List Row) (s : Nat) : ∀ n : Nat,
    (List.range n).flatMap (fun p => pagedRows l p s) = l.take (n * s) := by
  intro n
  induction n with
  | zero => simp
  | succ n ih =>
    rw [List.range_succ, List.flatMap_append, ih]
    simp only [List.flatMap_cons, List.flatMap_nil, List.append_nil]
    rw [pagedRows_eq_drop_take, ← List.take_add, Nat.succ_mul]

/-- C7: pagination returns the slice clamped to the sequence bounds — it
never returns more than `pageSize` rows, it returns the empty sequence
for every out-of-range page, and concatenating the pages
`0 .. ceil(len/pageSize) - 1` reconstructs the input sequence exactly. -/
theorem C7_pagination (l : List Row) (page pageSize : Nat) (h : 0 < pageSize) :
    (pagedRows l page pageSize).length ≤ pageSize ∧
    (l.length ≤ page * pageSize → pagedRows l page pageSize = []) ∧
    (List.range ((l.length + pageSize - 1) / pageSize)).flatMap
      (fun p => pagedRows l p pageSize) = l := by
  refine ⟨?_, ?_, ?_⟩
  · rw [pagedRows_eq_drop_take]
    exact List.length_take_le _ _
  · intro hle
    rw [pagedRows_eq_drop_take, List.drop_eq_nil_of_le hle, List.take_nil]
  · rw [pages_join_take]
    have hceil : l.length ≤ ((l.length + pageSize - 1) / pageSize) * pageSize := by
      have hd := Nat.div_add_mod (l.length + pageSize - 1) pageSize
      have hm := Nat.mod_lt (l.length + pageSize - 1) h
      rw [Nat.mul_comm]
      generalize hq : pageSize * ((l.length + pageSize - 1) / pageSize) = q at hd
      omega
    exact List.take_of_length_le hceil

/-- C7, witness: pagination of a concrete three-row sequence with page
size 2 (the hypothesis `0 < 2` discharged there). -/
theorem C7_pagination_witness :
    0 < 2 ∧
    ((pagedRows [johnRow, zeroRow, johnRow] 0 2).length ≤ 2 ∧
     ([johnRow, zeroRow, johnRow].length ≤ 0 * 2 → pagedRows [johnRow, zeroRow, johnRow] 0 2 = []) ∧
     (List.range (([johnRow, zeroRow, johnRow].length + 2 - 1) / 2)).flatMap
       (fun p => pagedRows [johnRow, zeroRow, johnRow] p 2) = [johnRow, zeroRow, johnRow]) :=
  ⟨by decide, C7_pagination [johnRow, zeroRow, johnRow] 0 2 (by decide)⟩

/-! ## C10 — toggleRowSelection -/

/-- Toggling flips the membership of the toggled identity. -/
theorem toggle_mem_self (s : TableState) (rowId : String) :
    rowId ∈ (toggleRowSelection s rowId).selectedRows ↔ ¬ rowId ∈ s.selectedRows := by
  unfold toggleRowSelection
  split
  · next h =>
    simp only [List.mem_filter]
    simp at h
    simp [h]
  · next h =>
    simp at h
    simp [h]

/-- Toggling leaves the membership of every other identity unchanged. -/
theorem toggle_mem_other (s : TableState) (rowId other : String) (h : other ≠ rowId) :
    (other ∈ (toggleRowSelection s rowId).selectedRows ↔ other ∈ s.selectedRows) := by
  unfold toggleRowSelection
  split
  · simp [List.mem_filter, h]
  · simp [h]

/-- C10: `toggleRowSelection(id)` toggles the membership of `id` in the
selection, leaves every other identity's membership unchanged, and
applying it twice yields a selection equal as a set to the original. -/
theorem C10_toggle_selection (s : TableState) (rowId : String) :
    (rowId ∈ (toggleRowSelection s rowId).selectedRows ↔ ¬ rowId ∈ s.selectedRows) ∧
    (∀ other, other ≠ rowId →
      (other ∈ (toggleRowSelection s rowId).selectedRows ↔ other ∈ s.selectedRows)) ∧
    (∀ x, x ∈ (toggleRowSelection (toggleRowSelection s rowId) rowId).selectedRows ↔
      x ∈ s.selectedRows) := by
  refine ⟨toggle_mem_self s rowId, fun other h => toggle_mem_other s rowId other h, ?_⟩
  intro x
  by_cases hx : x = rowId
  · subst hx
    rw [toggle_mem_self, toggle_mem_self, not_not]
  · rw [toggle_mem_other _ _ _ hx, toggle_mem_other _ _ _ hx]

/-- C10, witness: toggling a concrete identity in and out of a concrete
selection (the inner hypothesis discharged at the identity "9"). -/
theorem C10_toggle_selection_witness :
    ("9" : String) ≠ "1" ∧
    ("9" ∈ (toggleRowSelection { initialState with selectedRows := ["1", "9"] } "1").selectedRows ↔
      "9" ∈ ({ initialState with selectedRows := ["1", "9"] } : TableState).selectedRows) :=
  ⟨by decide,
   (C10_toggle_selection { initialState with selectedRows := ["1", "9"] } "1").2.1 "9"
     (by decide)⟩

/-! ## C8 — numeric operators and NaN -/

/-- NaN on the right of a JS `<` makes it false. -/
theorem jsNumLt_nan_right (a : JsNum) : jsNumLt a .nan = false := by
  cases a <;> rfl

/-- NaN on the left of a JS `<` makes it false. -/
theorem jsNumLt_nan_left (b : JsNum) : jsNumLt .nan b = false := by
  cases b <;> rfl

/-- NaN on the right of a JS `<=` makes it false. -/
theorem jsNumLe_nan_right (a : JsNum) : jsNumLe a .nan = false := by
  cases a <;> rfl

/-- NaN on the left of a JS `<=` makes it false. -/
theorem jsNumLe_nan_left (b : JsNum) : jsNumLe .nan b = false := by
  cases b <;> rfl

/-- C8: `greaterThan`, `lessThan` and `between` compare the row value and
the filter value(s) after numeric coercion, and any comparison with a
NaN operand is false; hence a `between` filter whose primary or secondary
value coerces to NaN accepts no rows (the whole conjunctive filter stage
returns the empty sequence). -/
theorem C8_nan_comparisons :
    (∀ (row : Row) (f : ColumnFilter), f.operator = .greaterThan →
      (jsToNumber (rowGet row f.column) = .nan ∨ jsToNumber (some f.value) = .nan) →
      evalFilter row f = false) ∧
    (∀ (row : Row) (f : ColumnFilter), f.operator = .lessThan →
      (jsToNumber (rowGet row f.column) = .nan ∨ jsToNumber (some f.value) = .nan) →
      evalFilter row f = false) ∧
    (∀ (row : Row) (f : ColumnFilter), f.operator = .between →
      (jsToNumber (rowGet row f.column) = .nan ∨ jsToNumber (some f.value) = .nan ∨
        jsToNumber f.value2 = .nan) →
      evalFilter row f = false) ∧
    (∀ (rows : List Row) (filters : List ColumnFilter) (f : ColumnFilter),
      f ∈ filters → f.operator = .between →
      (jsToNumber (some f.value) = .nan ∨ jsToNumber f.value2 = .nan) →
      applyFilters rows filters = []) := by
  have hbetween : ∀ (row : Row) (f : ColumnFilter), f.operator = .between →
      (jsToNumber (rowGet row f.column) = .nan ∨ jsToNumber (some f.value) = .nan ∨
        jsToNumber f.value2 = .nan) →
      evalFilter row f = false := by
    intro row f hop hnan
    rcases f with ⟨c, op, v, v2⟩
    subst hop
    show (jsNumGe (jsToNumber (rowGet row c)) (jsToNumber (some v)) &&
        jsNumLe (jsToNumber (rowGet row c)) (jsToNumber v2)) = false
    rcases hnan with hn | hn | hn <;> simp only at hn <;> rw [hn]
    · rw [show jsNumGe JsNum.nan (jsToNumber (some v)) = false from
        jsNumLe_nan_right _]
      rfl
    · show (jsNumLe JsNum.nan _ && _) = false
      rw [jsNumLe_nan_left]
      rfl
    · rw [jsNumLe_nan_right]
      exact Bool.and_false _
  refine ⟨?_, ?_, hbetween, ?_⟩
  · intro row f hop hnan
    rcases f with ⟨c, op, v, v2⟩
    subst hop
    show jsNumLt (jsToNumber (some v)) (jsToNumber (rowGet row c)) = false
    rcases hnan with hn | hn <;> simp only at hn <;> rw [hn]
    · exact jsNumLt_nan_right _
    · exact jsNumLt_nan_left _
  · intro row f hop hnan
    rcases f with ⟨c, op, v, v2⟩
    subst hop
    show jsNumLt (jsToNumber (rowGet row c)) (jsToNumber (some v)) = false
    rcases hnan with hn | hn <;> simp only at hn <;> rw [hn]
    · exact jsNumLt_nan_left _
    · exact jsNumLt_nan_right _
  · intro rows filters f hf hop hnan
    unfold applyFilters
    rw [if_pos (List.length_pos.mpr (List.ne_nil_of_mem hf))]
    rw [List.filter_eq_nil_iff]
    intro row _
    have hff : evalFilter row f = false :=
      hbetween row f hop (Or.inr (hnan.imp id id))
    cases hall : filters.all (fun filter => evalFilter row filter)
    · simp
    · have := List.all_eq_true.mp hall f hf
      rw [hff] at this
      cases this

/-- A `between` filter whose primary value is the non-numeric string
"abc". -/
def betweenFilterAbc : ColumnFilter :=
  { column := "x", operator := .between, value := .str "abc", value2 := some (.str "10") }

/-- C8, witness: the non-numeric `between` filter accepts no rows on a
concrete one-row list (all hypotheses discharged concretely). -/
theorem C8_nan_comparisons_witness :
    betweenFilterAbc ∈ [betweenFilterAbc] ∧
    betweenFilterAbc.operator = .between ∧
    jsToNumber (some betweenFilterAbc.value) = .nan ∧
    applyFilters [zeroRow] [betweenFilterAbc] = [] :=
  ⟨by decide, rfl, by decide,
   C8_nan_comparisons.2.2.2 [zeroRow] [betweenFilterAbc] betweenFilterAbc
     (by decide) rfl (Or.inl (by decide))⟩

/-! ## C9 — the search stage -/

/-- C9: with non-empty search text, the search stage keeps a row iff some
visible column's string representation of the row's value (absent/null
stringifying to the empty string), lower-cased, contains the lower-cased
search text as a substring. -/
theorem C9_search_stage (rows : List Row) (columns : List TableColumn) (search : String)
    (h : search ≠ "") (row : Row) :
    row ∈ applySearch rows columns search ↔
      row ∈ rows ∧ ∃ col ∈ columns, col.visible = true ∧
        strIncludes (jsToLower (stringifyCoalesce (rowGet row col.id))) (jsToLower search)
          = true := by
  unfold applySearch
  rw [if_pos h]
  simp only [List.mem_filter, List.any_eq_true, searchColMatch, Bool.and_eq_true]

/-- C9, witness: search text "jo" over the `name` column holding "John"
(the non-emptiness hypothesis discharged there); the row is included. -/
theorem C9_search_stage_witness :
    ("jo" : String) ≠ "" ∧
    (johnRow ∈ applySearch [johnRow] [nameColumn] "jo" ↔
      johnRow ∈ [johnRow] ∧ ∃ col ∈ [nameColumn], col.visible = true ∧
        strIncludes (jsToLower (stringifyCoalesce (rowGet johnRow col.id))) (jsToLower "jo")
          = true) ∧
    applySearch [johnRow] [nameColumn] "jo" = [johnRow] :=
  ⟨by decide, C9_search_stage [johnRow] [nameColumn] "jo" (by decide) johnRow, by decide⟩

example : jsToNumber (some (.str "abc")) = .nan := by decide
example : jsToNumber (some (.str " 42 ")) = .val 42 := by decide
example : jsToNumber (some (.str "")) = .val 0 := by decide
example : jsToNumber (some (.str "1.5")) = .val (mkRat 3 2) := by decide
example : jsToNumber none = .nan := by decide
example : jsTruthy (some (.num (.val 0))) = false := by decide
example : jsToString (some (.num (.val 0))) = "0" := by decide
example : strIncludes "john" "jo" = true := by decide
example : jsToLower "John" = "john" := by decide
